import Mathlib

/-!
Shallow embedding of the dam-desktop monitoring/analysis pipeline
(`AIContentAnalyzer`, `AIWindowDetector`, `NotificationSettings`,
`MonitoringService`) and proofs about the specified behaviour.

JavaScript regular expressions used by the source are embedded as
backtracking matchers over `List Char`.  A matcher returns the list of
possible remainders after a match starting at the head of the input, in
the order a JavaScript engine would try them (greedy quantifiers longest
first, alternatives in written order).  Word boundaries (`\b`) are
checked against the characters adjacent to the candidate span.  Regexes
carrying the JavaScript `g` flag keep their `lastIndex` state, which the
embedding threads explicitly.
-/

namespace DamDesktop

/-- Apostrophe character (U+0027), used to build string literals. -/
def aq : String := String.mk [Char.ofNat 39]

/-- Double-quote character as a string. -/
def dq : String := String.mk [Char.ofNat 34]

/-- ASCII lower-casing, the effect of JavaScript `toLowerCase` on the
ASCII range (the only range the source's patterns rely on). -/
def asciiLower (c : Char) : Char :=
  if 65 ≤ c.toNat ∧ c.toNat ≤ 90 then Char.ofNat (c.toNat + 32) else c

/-- Lower-case a character list. -/
def lowerL (l : List Char) : List Char := l.map asciiLower

/-- JavaScript `\d`. -/
def jsDigit (c : Char) : Bool := c.isDigit

/-- JavaScript word character (`\w`), the class deciding `\b`. -/
def jsWord (c : Char) : Bool := c.isAlphanum || c = Char.ofNat 95

/-- JavaScript `\s` (ASCII fragment). -/
def jsSpace (c : Char) : Bool :=
  c = ' ' || c = Char.ofNat 9 || c = Char.ofNat 10 || c = Char.ofNat 13 ||
  c = Char.ofNat 11 || c = Char.ofNat 12

/-- JavaScript `.` : any character but a line terminator. -/
def jsDot (c : Char) : Bool := !(c = Char.ofNat 10 || c = Char.ofNat 13)

/-- `\b` between two (optional, `none` = outside the string) characters:
exactly one side is a word character. -/
def jsBoundary (a b : Option Char) : Bool :=
  (match a with | some c => jsWord c | none => false) !=
  (match b with | some c => jsWord c | none => false)

/-- A matcher: candidate remainders after a match at the head of the
input, in backtracking preference order. -/
abbrev Matcher := List Char → List (List Char)

/-- Does `l` start with `sub`? -/
def headIs (sub l : List Char) : Bool := l.take sub.length == sub

/-- Does `l` contain `sub` as a contiguous sublist? -/
def hasSubL (sub : List Char) : List Char → Bool
  | [] => headIs sub []
  | c :: tl => headIs sub (c :: tl) || hasSubL sub tl

/-- Literal string (case-sensitive). -/
def mLit (s : String) : Matcher := fun l =>
  if headIs s.toList l then [l.drop s.length] else []

/-- Run a matcher case-insensitively on raw text (the `i` flag): match
against the lower-cased characters but keep the raw remainders.
Lower-casing is character-wise, so candidate lengths agree. -/
def mCI (m : Matcher) : Matcher := fun l =>
  (m (l.map asciiLower)).map (fun rest => l.drop (l.length - rest.length))

/-- Single character from a class. -/
def mCls (p : Char → Bool) : Matcher := fun l =>
  match l with
  | c :: tl => if p c then [tl] else []
  | [] => []

/-- Sequencing. -/
def mSeq (a b : Matcher) : Matcher := fun l => (a l).flatMap b

/-- Alternation, first alternative preferred. -/
def mAlt (a b : Matcher) : Matcher := fun l => a l ++ b l

/-- `?` : greedy option. -/
def mOpt (a : Matcher) : Matcher := fun l => a l ++ [l]

/-- Length of the leading run of characters satisfying `p`. -/
def leadRun (p : Char → Bool) : List Char → Nat
  | [] => 0
  | c :: tl => if p c then leadRun p tl + 1 else 0

/-- `{lo,hi}` over a single-character class, greedy (longest first). -/
def mRepRange (p : Char → Bool) (lo hi : Nat) : Matcher := fun l =>
  let k := min (leadRun p l) hi
  if k < lo then [] else
    (List.range (k + 1 - lo)).map (fun i => l.drop (k - i))

/-- `{n}` over a single-character class. -/
def mRepExact (p : Char → Bool) (n : Nat) : Matcher := mRepRange p n n

/-- `{n,}` over a single-character class, greedy. -/
def mRepGe (p : Char → Bool) (n : Nat) : Matcher := fun l =>
  let k := leadRun p l
  if k < n then [] else
    (List.range (k + 1 - n)).map (fun i => l.drop (k - i))

/-- `*` over a single-character class, greedy. -/
def mStar (p : Char → Bool) : Matcher := mRepGe p 0

/-- Last character consumed by a candidate match of `m` on `l` leaving
remainder `rest`. -/
def consumedLast (l rest : List Char) : Option Char :=
  (l.take (l.length - rest.length)).getLast?

/-- Try a match at the current position.  `startB`/`endB` encode a
leading/trailing `\b`; `prev` is the character before the position.
The first candidate whose trailing boundary succeeds is the match
(JavaScript backtracking order). -/
def matchesAt (m : Matcher) (startB endB : Bool) (prev : Option Char)
    (l : List Char) : Option (List Char) :=
  if startB && !jsBoundary prev l.head? then none
  else (m l).find? (fun rest => !endB || jsBoundary (consumedLast l rest) rest.head?)

/-- Scan for the first match from position `i`; returns (start, end).
A match is attempted at every position, the empty tail included. -/
def firstMatchAux (m : Matcher) (startB endB : Bool) :
    Option Char → Nat → List Char → Option (Nat × Nat)
  | prev, i, [] =>
    match matchesAt m startB endB prev [] with
    | some rest => some (i, i + (0 - rest.length))
    | none => none
  | prev, i, c :: tl =>
    match matchesAt m startB endB prev (c :: tl) with
    | some rest => some (i, i + ((c :: tl).length - rest.length))
    | none => firstMatchAux m startB endB (some c) (i + 1) tl

/-- First match of the pattern anywhere in the string. -/
def firstMatch (m : Matcher) (startB endB : Bool) (l : List Char) :
    Option (Nat × Nat) :=
  firstMatchAux m startB endB none 0 l

/-- `regex.test(s)` for a regex without the `g` flag. -/
def testPat (m : Matcher) (startB endB : Bool) (l : List Char) : Bool :=
  (firstMatch m startB endB l).isSome

/-- `regex.test(s)` for a regex WITH the `g` flag: the search starts at
`lastIndex`; on success `lastIndex` becomes the match end, on failure it
resets to 0.  Boundary context is taken from the full string. -/
def testPatG (m : Matcher) (startB endB : Bool) (lastIndex : Nat)
    (l : List Char) : Bool × Nat :=
  if l.length < lastIndex then (false, 0)
  else
    match firstMatchAux m startB endB (l.take lastIndex).getLast? lastIndex
        (l.drop lastIndex) with
    | some (_, e) => (true, e)
    | none => (false, 0)

/-- `^pattern$` (no `m` flag): the pattern must consume the whole
string. -/
def anchoredTest (m : Matcher) (l : List Char) : Bool :=
  (m l).any (fun rest => rest.isEmpty)

/-- `String.replace` core: walk the string, replacing the first match
(or every match when `global`).  After a replacement the scan resumes at
the match end, with boundary context from the original characters. -/
def replaceAux (m : Matcher) (startB endB : Bool) (repl : List Char)
    (global : Bool) : Nat → Option Char → List Char → List Char
  | 0, _, l => l
  | fuel + 1, prev, l =>
    match matchesAt m startB endB prev l with
    | some rest =>
      if rest.length < l.length then
        repl ++ (if global then
          replaceAux m startB endB repl global fuel (consumedLast l rest) rest
        else rest)
      else
        match l with
        | [] => []
        | c :: tl => c :: replaceAux m startB endB repl global fuel (some c) tl
    | none =>
      match l with
      | [] => []
      | c :: tl => c :: replaceAux m startB endB repl global fuel (some c) tl

/-- `s.replace(re, repl)`; `global` = the `g` flag. -/
def jsReplace (m : Matcher) (startB endB : Bool) (repl : String)
    (global : Bool) (s : String) : String :=
  String.mk (replaceAux m startB endB repl.toList global (s.length + 1) none s.toList)

/-- JavaScript `String.includes`. -/
def jsIncludes (s sub : String) : Bool := hasSubL sub.toList s.toList

/-- JavaScript `String.trim` (ASCII whitespace fragment). -/
def jsTrim (s : String) : String :=
  String.mk (((s.toList.dropWhile jsSpace).reverse.dropWhile jsSpace).reverse)

/-- JavaScript `toLowerCase` (ASCII). -/
def jsLower (s : String) : String := String.mk (lowerL s.toList)

/-! ## `AIContentAnalyzer.sensitivePatterns`

One matcher per entry of the source table.  Patterns with the `i` flag
are evaluated on the lower-cased text with lower-cased literals and
case-folded classes; the others on the raw text. -/

/-- `[a-zA-Z0-9]` (also the case-folded `[a-zA-Z0-9]`/`[0-9A-Z]` of the
`i`-flagged key patterns). -/
def alnum (c : Char) : Bool := c.isAlphanum

/-- `[a-zA-Z0-9_-]` (case-folded where under `i`). -/
def urlSafe (c : Char) : Bool := c.isAlphanum || c = Char.ofNat 95 || c = '-'

/-- `/\b\d{3}-\d{2}-\d{4}\b/` core. -/
def ssnM : Matcher :=
  mSeq (mRepExact jsDigit 3) (mSeq (mLit "-")
    (mSeq (mRepExact jsDigit 2) (mSeq (mLit "-") (mRepExact jsDigit 4))))

def ssnTest (l : List Char) : Bool := testPat ssnM true true l

/-- `/\b\d{4}[\s-]?\d{4}[\s-]?\d{4}[\s-]?\d{4}\b/` core. -/
def creditCardM : Matcher :=
  let sep := mOpt (mCls (fun c => jsSpace c || c = '-'))
  mSeq (mRepExact jsDigit 4) (mSeq sep (mSeq (mRepExact jsDigit 4)
    (mSeq sep (mSeq (mRepExact jsDigit 4) (mSeq sep (mRepExact jsDigit 4))))))

def creditCardTest (l : List Char) : Bool := testPat creditCardM true true l

/-- `/\b[A-Za-z0-9._%+-]+@[A-Za-z0-9.-]+\.[A-Z|a-z]{2,}\b/` core
(the `|` inside the last class is a literal character of that class). -/
def emailM : Matcher :=
  mSeq (mRepGe (fun c => c.isAlphanum || c = '.' || c = Char.ofNat 95 ||
      c = '%' || c = '+' || c = '-') 1)
    (mSeq (mLit "@") (mSeq (mRepGe (fun c => c.isAlphanum || c = '.' || c = '-') 1)
      (mSeq (mLit ".") (mRepGe (fun c => c.isAlpha || c = '|') 2))))

def emailTest (l : List Char) : Bool := testPat emailM true true l

/-- `/\b(\+\d{1,3}[- ]?)?\(?\d{3}\)?[- ]?\d{3}[- ]?\d{4}\b/` core. -/
def phoneM : Matcher :=
  let dashSp := mOpt (mCls (fun c => c = '-' || c = ' '))
  mSeq (mOpt (mSeq (mLit "+") (mSeq (mRepRange jsDigit 1 3) dashSp)))
    (mSeq (mOpt (mLit "(")) (mSeq (mRepExact jsDigit 3)
      (mSeq (mOpt (mLit ")")) (mSeq dashSp (mSeq (mRepExact jsDigit 3)
        (mSeq dashSp (mRepExact jsDigit 4)))))))

def phoneTest (l : List Char) : Bool := testPat phoneM true true l

/-- The `gi`-flagged `apiKey` alternation, case-folded (applied to the
lower-cased text):
`\b(sk-[a-zA-Z0-9]{48,}|AKIA[0-9A-Z]{16}|ya29\.[a-zA-Z0-9_-]+|AIza[0-9A-Za-z_-]{35}|xoxb-[0-9]+-[0-9A-Za-z-]+|ghp_[a-zA-Z0-9]{36}|gho_[a-zA-Z0-9]{36}|github_pat_[a-zA-Z0-9_]+|Bearer\s+[a-zA-Z0-9_-]+)\b` -/
def apiKeyM : Matcher :=
  mAlt (mSeq (mLit "sk-") (mRepGe alnum 48))
  (mAlt (mSeq (mLit "akia") (mRepExact alnum 16))
  (mAlt (mSeq (mLit "ya29.") (mRepGe urlSafe 1))
  (mAlt (mSeq (mLit "aiza") (mRepExact urlSafe 35))
  (mAlt (mSeq (mLit "xoxb-") (mSeq (mRepGe jsDigit 1)
      (mSeq (mLit "-") (mRepGe (fun c => c.isAlphanum || c = '-') 1))))
  (mAlt (mSeq (mLit "ghp_") (mRepExact alnum 36))
  (mAlt (mSeq (mLit "gho_") (mRepExact alnum 36))
  (mAlt (mSeq (mLit "github_pat_") (mRepGe jsWord 1))
        (mSeq (mLit "bearer") (mSeq (mRepGe jsSpace 1) (mRepGe urlSafe 1))))))))))

/-- Stateful `test` of the `g`-flagged `apiKey` pattern on the
lower-cased text. -/
def apiKeyTestG (lastIndex : Nat) (ll : List Char) : Bool × Nat :=
  testPatG apiKeyM true true lastIndex ll

/-- `i`-flagged
`\b(api[_-]?key|apikey|api[_-]?secret|access[_-]?token|bearer)[:\s=]*['"]?[a-zA-Z0-9_-]{16,}['"]?\b`
on the lower-cased text. -/
def apiKeyGeneralM : Matcher :=
  let usd := mOpt (mCls (fun c => c = Char.ofNat 95 || c = '-'))
  let kw := mAlt (mSeq (mLit "api") (mSeq usd (mLit "key")))
    (mAlt (mLit "apikey")
    (mAlt (mSeq (mLit "api") (mSeq usd (mLit "secret")))
    (mAlt (mSeq (mLit "access") (mSeq usd (mLit "token"))) (mLit "bearer"))))
  let quote := mOpt (mCls (fun c => c = Char.ofNat 39 || c = Char.ofNat 34))
  mSeq kw (mSeq (mStar (fun c => c = ':' || jsSpace c || c = '='))
    (mSeq quote (mSeq (mRepGe urlSafe 16) quote)))

def apiKeyGeneralTest (ll : List Char) : Bool := testPat apiKeyGeneralM true true ll

/-- `g`-flagged, case-sensitive `\bsk-[a-zA-Z0-9]{20,}\b`. -/
def openaiKeyM : Matcher := mSeq (mLit "sk-") (mRepGe alnum 20)

def openaiKeyTestG (lastIndex : Nat) (l : List Char) : Bool × Nat :=
  testPatG openaiKeyM true true lastIndex l

/-- `g`-flagged, case-sensitive `\b(AKIA[0-9A-Z]{16}|[A-Z0-9]{20})\b`. -/
def awsKeyM : Matcher :=
  let upDigit := fun (c : Char) => c.isUpper || c.isDigit
  mAlt (mSeq (mLit "AKIA") (mRepExact upDigit 16)) (mRepExact upDigit 20)

def awsKeyTestG (lastIndex : Nat) (l : List Char) : Bool × Nat :=
  testPatG awsKeyM true true lastIndex l

/-- `i`-flagged `\b(password|passwd|pwd)[:\s=]*['"]?[^\s'"]{8,}['"]?\b`
on the lower-cased text. -/
def passwordM : Matcher :=
  let kw := mAlt (mLit "password") (mAlt (mLit "passwd") (mLit "pwd"))
  let quote := mOpt (mCls (fun c => c = Char.ofNat 39 || c = Char.ofNat 34))
  let body := fun (c : Char) =>
    !(jsSpace c || c = Char.ofNat 39 || c = Char.ofNat 34)
  mSeq kw (mSeq (mStar (fun c => c = ':' || jsSpace c || c = '='))
    (mSeq quote (mSeq (mRepGe body 8) quote)))

def passwordTest (ll : List Char) : Bool := testPat passwordM true true ll

/-- `i`-flagged `\$[\d,]+\.?\d*|USD\s*[\d,]+|revenue|profit|salary|income`
(no `\b`), on the lower-cased text. -/
def financialDataM : Matcher :=
  let digitComma := fun (c : Char) => c.isDigit || c = ','
  mAlt (mSeq (mLit "$") (mSeq (mRepGe digitComma 1)
      (mSeq (mOpt (mLit ".")) (mStar jsDigit))))
  (mAlt (mSeq (mLit "usd") (mSeq (mStar jsSpace) (mRepGe digitComma 1)))
  (mAlt (mLit "revenue") (mAlt (mLit "profit")
  (mAlt (mLit "salary") (mLit "income")))))

def financialDataTest (ll : List Char) : Bool := testPat financialDataM false false ll

/-- `i`-flagged `customer|client|user|account.*name|billing.*address`
on the lower-cased text. -/
def customerDataM : Matcher :=
  mAlt (mLit "customer")
  (mAlt (mLit "client")
  (mAlt (mLit "user")
  (mAlt (mSeq (mLit "account") (mSeq (mStar jsDot) (mLit "name")))
        (mSeq (mLit "billing") (mSeq (mStar jsDot) (mLit "address"))))))

def customerDataTest (ll : List Char) : Bool := testPat customerDataM false false ll

/-- `lastIndex` state of the three `g`-flagged sensitive patterns,
0 at construction of the analyzer. -/
structure RegexState where
  apiKey : Nat
  openaiKey : Nat
  awsKey : Nat
deriving Repr, DecidableEq

def RegexState.init : RegexState := ⟨0, 0, 0⟩

structure SensitiveDataResult where
  detected : Bool
  types : List String
deriving Repr, DecidableEq

/-- `AIContentAnalyzer.analyzeSensitiveData`: every pattern of the table
is `test`ed in declaration order and its key pushed on success.  The
`g`-flagged patterns consult and update their `lastIndex`. -/
def analyzeSensitiveData (st : RegexState) (text : String) :
    SensitiveDataResult × RegexState :=
  let l := text.toList
  let ll := lowerL l
  let ssnB := ssnTest l
  let creditCardB := creditCardTest l
  let emailB := emailTest l
  let phoneB := phoneTest l
  let api := apiKeyTestG st.apiKey ll
  let apiKeyGeneralB := apiKeyGeneralTest ll
  let openai := openaiKeyTestG st.openaiKey l
  let aws := awsKeyTestG st.awsKey l
  let passwordB := passwordTest ll
  let financialB := financialDataTest ll
  let customerB := customerDataTest ll
  let detectedTypes :=
    (if ssnB then ["ssn"] else []) ++
    (if creditCardB then ["creditCard"] else []) ++
    (if emailB then ["email"] else []) ++
    (if phoneB then ["phone"] else []) ++
    (if api.1 then ["apiKey"] else []) ++
    (if apiKeyGeneralB then ["apiKeyGeneral"] else []) ++
    (if openai.1 then ["openaiKey"] else []) ++
    (if aws.1 then ["awsKey"] else []) ++
    (if passwordB then ["password"] else []) ++
    (if financialB then ["financialData"] else []) ++
    (if customerB then ["customerData"] else [])
  (⟨!detectedTypes.isEmpty, detectedTypes⟩,
   ⟨api.2, openai.2, aws.2⟩)

/-! ## `AIContentAnalyzer.aiToolPatterns` and `detectAITool` -/

/-- The `aiToolPatterns` table (all `i`-flagged; matched against the
already lower-cased combined text, so literals are lower-cased). -/
def aiToolPatterns : List (String × Matcher) :=
  [("chatgpt", mAlt (mLit "chat.openai.com") (mLit "chatgpt")),
   ("claude", mAlt (mLit "claude.ai") (mLit "anthropic")),
   ("gemini", mAlt (mLit "gemini.google") (mLit "bard")),
   ("copilot", mAlt (mSeq (mLit "github") (mSeq (mStar jsDot) (mLit "copilot")))
      (mLit "copilot")),
   ("midjourney", mLit "midjourney"),
   ("perplexity", mLit "perplexity.ai")]

/-- `AIContentAnalyzer.detectAITool`: first pattern matching
`(windowName + " " + content).toLowerCase()` wins. -/
def detectAITool (windowName content : String) : Option String :=
  let combinedText := lowerL (windowName ++ " " ++ content).toList
  (aiToolPatterns.find? (fun p => testPat p.2 false false combinedText)).map (·.1)

/-! ## `AIContentAnalyzer.promptQualityIndicators` and
`analyzePromptQuality` -/

inductive PromptQuality | poor | fair | good | excellent
deriving Repr, DecidableEq

/-- `/^(help|fix|do|make|create)$/i`. -/
def poorVerbTest (text : String) : Bool :=
  anchoredTest (mAlt (mLit "help") (mAlt (mLit "fix")
    (mAlt (mLit "do") (mAlt (mLit "make") (mLit "create")))))
    (lowerL text.toList)

/-- `/^.{0,10}$/`. -/
def poorLenTest (text : String) : Bool :=
  anchoredTest (mRepRange jsDot 0 10) text.toList

/-- `/^(what|how|why|when|where)$/i`. -/
def poorQuestionTest (text : String) : Bool :=
  anchoredTest (mAlt (mLit "what") (mAlt (mLit "how")
    (mAlt (mLit "why") (mAlt (mLit "when") (mLit "where")))))
    (lowerL text.toList)

/-- `poor` indicators table. -/
def poorIndicators : List (String → Bool) :=
  [poorVerbTest, poorLenTest, poorQuestionTest]

/-- `/context|background|specifically|example|format|style/i`. -/
def goodContextTest (text : String) : Bool :=
  testPat (mAlt (mLit "context") (mAlt (mLit "background")
    (mAlt (mLit "specifically") (mAlt (mLit "example")
    (mAlt (mLit "format") (mLit "style")))))) false false (lowerL text.toList)

/-- `/step.?by.?step|detailed|comprehensive/i`. -/
def goodStepTest (text : String) : Bool :=
  testPat (mAlt (mSeq (mLit "step") (mSeq (mOpt (mCls jsDot))
    (mSeq (mLit "by") (mSeq (mOpt (mCls jsDot)) (mLit "step")))))
    (mAlt (mLit "detailed") (mLit "comprehensive"))) false false
    (lowerL text.toList)

/-- `/please.*explain|can.*you.*help.*with/i`. -/
def goodPoliteTest (text : String) : Bool :=
  testPat (mAlt
    (mSeq (mLit "please") (mSeq (mStar jsDot) (mLit "explain")))
    (mSeq (mLit "can") (mSeq (mStar jsDot) (mSeq (mLit "you")
      (mSeq (mStar jsDot) (mSeq (mLit "help") (mSeq (mStar jsDot)
        (mLit "with")))))))) false false (lowerL text.toList)

/-- `good` indicators table. -/
def goodIndicators : List (String → Bool) :=
  [goodContextTest, goodStepTest, goodPoliteTest]

/-- `/role.*play|act.*as|perspective|persona/i`. -/
def excRoleTest (text : String) : Bool :=
  testPat (mAlt (mSeq (mLit "role") (mSeq (mStar jsDot) (mLit "play")))
    (mAlt (mSeq (mLit "act") (mSeq (mStar jsDot) (mLit "as")))
    (mAlt (mLit "perspective") (mLit "persona")))) false false
    (lowerL text.toList)

/-- `/constraints|requirements|specifications/i`. -/
def excConstraintsTest (text : String) : Bool :=
  testPat (mAlt (mLit "constraints") (mAlt (mLit "requirements")
    (mLit "specifications"))) false false (lowerL text.toList)

/-- `/format.*as|structure.*like|output.*should/i`. -/
def excFormatTest (text : String) : Bool :=
  testPat (mAlt (mSeq (mLit "format") (mSeq (mStar jsDot) (mLit "as")))
    (mAlt (mSeq (mLit "structure") (mSeq (mStar jsDot) (mLit "like")))
    (mSeq (mLit "output") (mSeq (mStar jsDot) (mLit "should"))))) false false
    (lowerL text.toList)

/-- `/avoid|don't|exclude|without/i`. -/
def excNegativeTest (text : String) : Bool :=
  testPat (mAlt (mLit "avoid") (mAlt (mLit ("don" ++ aq ++ "t"))
    (mAlt (mLit "exclude") (mLit "without")))) false false (lowerL text.toList)

/-- `excellent` indicators table. -/
def excellentIndicators : List (String → Bool) :=
  [excRoleTest, excConstraintsTest, excFormatTest, excNegativeTest]

/-- `AIContentAnalyzer.analyzePromptQuality`: excellent short-circuits,
then the good indicators are counted, then the poor indicators, then
the length fallback. -/
def analyzePromptQuality (text : String) : PromptQuality :=
  if excellentIndicators.any (fun p => p text) then .excellent
  else
    let goodCount := goodIndicators.countP (fun p => p text)
    if goodCount ≥ 2 then .good
    else if goodCount == 1 then .fair
    else if poorIndicators.any (fun p => p text) then .poor
    else if text.length > 50 then .fair else .poor

/-! ## `AIContentAnalyzer.calculateRiskLevel` -/

inductive RiskLevel | low | medium | high | critical
deriving Repr, DecidableEq

/-- `AIContentAnalyzer.calculateRiskLevel`. -/
def calculateRiskLevel (hasSensitiveData : Bool) (sensitiveTypes : List String)
    (aiToolDetected : Option String) : RiskLevel :=
  if aiToolDetected.isNone then .low
  else if hasSensitiveData then
    if sensitiveTypes.any (fun type => ["apiKey", "password", "ssn"].contains type)
    then .critical
    else if sensitiveTypes.any (fun type =>
        ["financialData", "customerData", "creditCard"].contains type)
    then .high
    else .medium
  else .low

/-! ## Suggestions and learning opportunities -/

inductive SuggestionType | security | efficiency | quality | alternative
deriving Repr, DecidableEq

inductive SuggestionPriority | low | medium | high
deriving Repr, DecidableEq

structure Suggestion where
  type : SuggestionType
  title : String
  description : String
  actionable : Bool
  priority : SuggestionPriority
  improvedPrompt : Option String := none
  learningResource : Option String := none
  canRewrite : Option Bool := none
deriving Repr, DecidableEq

inductive LearningOpportunityType
  | prompt_improvement | tool_suggestion | security_risk | efficiency_tip
deriving Repr, DecidableEq

structure LearningOpportunity where
  type : LearningOpportunityType
  title : String
  description : String
  exampleStr : Option String := none
  resources : Option (List String) := none
deriving Repr, DecidableEq

/-- `AIContentAnalyzer.detectAIToolFromContent`. -/
def detectAIToolFromContent (content : String) : String :=
  let contentLower := jsLower content
  if jsIncludes contentLower "claude" || jsIncludes contentLower "anthropic" then "claude"
  else if jsIncludes contentLower "chatgpt" || jsIncludes contentLower "openai" then "chatgpt"
  else if jsIncludes contentLower "gemini" || jsIncludes contentLower "bard" then "gemini"
  else if jsIncludes contentLower "copilot" then "copilot"
  else "general"

/-- `AIContentAnalyzer.getAISpecificResource`. -/
def getAISpecificResource (tool : String) : String :=
  if tool = "claude" then
    "https://docs.anthropic.com/en/docs/build-with-claude/prompt-engineering/overview"
  else if tool = "chatgpt" then
    "https://platform.openai.com/docs/guides/prompt-engineering"
  else if tool = "gemini" then
    "https://ai.google.dev/gemini-api/docs/prompting-strategies"
  else if tool = "copilot" then
    "https://docs.github.com/en/copilot/using-github-copilot/prompt-engineering-for-github-copilot"
  else
    "https://docs.anthropic.com/en/docs/build-with-claude/prompt-engineering/overview"

/-- The `gi`-flagged `/(claude\.ai|chatgpt|openai|anthropic)/` used to
scrub tool names out of a prompt. -/
def toolNameM : Matcher :=
  mCI (mAlt (mLit "claude.ai") (mAlt (mLit "chatgpt")
    (mAlt (mLit "openai") (mLit "anthropic"))))

/-- `content.replace(/(claude\.ai|chatgpt|openai|anthropic)/gi, '').trim()` -/
def scrubToolNames (content : String) : String :=
  jsTrim (jsReplace toolNameM false false "" true content)

/-- `AIContentAnalyzer.generateImprovedPrompt`. -/
def generateImprovedPrompt (originalPrompt : String) (issueType : String) : String :=
  let original := scrubToolNames originalPrompt
  if issueType = "one-word" then
    if jsLower original = "help" then
      "I need help with [specific topic/task]. My current situation is [context]. I want to achieve [goal]. Please provide [step-by-step instructions/explanation/code example] in [format preference]."
    else if jsLower original = "fix" then
      "I have a problem with [specific issue]. Here" ++ aq ++ "s what I" ++ aq ++
      "ve tried: [previous attempts]. The error/issue is: [detailed description]. Please help me fix this by [desired solution approach]."
    else
      "Instead of " ++ dq ++ original ++ dq ++ ", try: " ++ dq ++
      "I need help with [specific topic]. My goal is [what you want to achieve]. Please provide [type of response you want]." ++ dq
  else if issueType = "too-short" then
    "Expand " ++ dq ++ original ++ dq ++ " to include: **Context**: What you" ++ aq ++
    "re working on, **Goal**: What you want to achieve, **Constraints**: Any limitations, **Format**: How you want the response structured."
  else if issueType = "vague-request" then
    if jsIncludes (jsLower original) "fix" then
      "I" ++ aq ++ "m having trouble with [specific problem]. Here" ++ aq ++
      "s my current code/situation: [paste code/details]. The issue is: [error message or unwanted behavior]. I want to achieve: [desired outcome]. Please help me fix this."
    else
      "Be specific about " ++ dq ++ original ++ dq ++ ": What exactly do you need? What" ++
      aq ++ "s your current situation? What" ++ aq ++
      "s your desired outcome? Any constraints or preferences?"
  else if issueType = "code-help" then
    "I" ++ aq ++ "m working on [project/task] in [programming language]. I need help with [specific functionality]. Here" ++
    aq ++ "s my current code: [code snippet]. The issue is: [error/problem]. Expected behavior: [what should happen]. Please provide a solution with explanation."
  else
    "Improve " ++ dq ++ original ++ dq ++
    " by adding: 1) Specific context about your situation, 2) Clear goal/objective, 3) Any constraints or requirements, 4) Preferred response format, 5) Examples if applicable."

structure PromptFeedback where
  description : String
  improvedPrompt : String
  learningResource : String
deriving Repr, DecidableEq

/-- `AIContentAnalyzer.getSpecificPromptFeedback`. -/
def getSpecificPromptFeedback (content : String) (aiTool : Option String) :
    PromptFeedback :=
  let trimmedContent := jsLower (jsTrim content)
  let cleanContent := scrubToolNames content
  let detectedTool := aiTool.getD (detectAIToolFromContent content)
  let learningResource := getAISpecificResource detectedTool
  if anchoredTest (mAlt (mLit "help") (mAlt (mLit "fix") (mAlt (mLit "do")
      (mAlt (mLit "make") (mAlt (mLit "create") (mAlt (mLit "what")
      (mAlt (mLit "why") (mAlt (mLit "how") (mAlt (mLit "when")
      (mLit "where")))))))))) trimmedContent.toList then
    ⟨dq ++ cleanContent ++ dq ++
     " is too vague. DAM suggests adding: WHAT you want help with, WHY you need it, and HOW you want the response formatted.",
     generateImprovedPrompt cleanContent "one-word", learningResource⟩
  else if trimmedContent.length < 10 then
    ⟨dq ++ cleanContent ++ dq ++
     " is too short. DAM recommends adding context about your situation, specific requirements, and desired outcome.",
     generateImprovedPrompt cleanContent "too-short", learningResource⟩
  else if anchoredTest (mAlt (mLit "help me") (mAlt (mLit "fix this")
      (mAlt (mLit "do this") (mLit "make it")))) trimmedContent.toList then
    ⟨dq ++ cleanContent ++ dq ++
     " lacks specifics. DAM suggests clarifying: What exactly needs help? What" ++ aq ++
     "s the current problem? What" ++ aq ++ "s your goal?",
     generateImprovedPrompt cleanContent "vague-request", learningResource⟩
  else if jsIncludes trimmedContent "code" && trimmedContent.length < 20 then
    ⟨"For coding help, DAM recommends specifying: the programming language, what the code should do, any error messages, and your current code snippet.",
     generateImprovedPrompt cleanContent "code-help", learningResource⟩
  else
    ⟨dq ++ cleanContent ++ dq ++
     " needs more detail. DAM suggests adding context, specifying your goal, mentioning constraints, and describing the desired output format.",
     generateImprovedPrompt cleanContent "generic", learningResource⟩

/-- `AIContentAnalyzer.generateSuggestions`: security block, then prompt
quality block, then efficiency block, pushed in that order. -/
def generateSuggestions (aiTool : Option String)
    (sensitiveData : SensitiveDataResult) (promptQuality : PromptQuality)
    (content : String) : List Suggestion :=
  let securityPart : List Suggestion :=
    match aiTool with
    | some tool =>
      if sensitiveData.detected then
        [{type := .security, title := "Sensitive Data Detected",
          description := "You" ++ aq ++ "re about to share " ++
            String.intercalate ", " sensitiveData.types ++ " with " ++ tool ++
            ". Consider removing or masking this information before proceeding.",
          actionable := true, priority := .high},
         {type := .alternative, title := "Use Local AI Alternative",
          description := "For sensitive data analysis, consider using a local AI model or enterprise-approved tools that don" ++
            aq ++ "t send data to external servers.",
          actionable := true, priority := .medium}]
      else []
    | none => []
  let qualityPart : List Suggestion :=
    if promptQuality = .poor then
      let specificFeedback := getSpecificPromptFeedback content aiTool
      [{type := .quality, title := "Your Prompt Needs Improvement",
        description := specificFeedback.description,
        actionable := true, priority := .high,
        improvedPrompt := some specificFeedback.improvedPrompt,
        learningResource := some specificFeedback.learningResource,
        canRewrite := some true}]
    else if promptQuality = .fair then
      let specificFeedback := getSpecificPromptFeedback content aiTool
      [{type := .quality, title := "DAM Can Make Your Prompt More Effective",
        description := specificFeedback.description,
        actionable := true, priority := .medium,
        improvedPrompt := some specificFeedback.improvedPrompt,
        learningResource := some specificFeedback.learningResource,
        canRewrite := some true}]
    else []
  let efficiencyPart : List Suggestion :=
    if jsIncludes (jsLower content) "spreadsheet" ||
       jsIncludes (jsLower content) "excel" ||
       jsIncludes (jsLower content) "csv" then
      [{type := .efficiency, title := "Use Specialized Tools",
        description := "For spreadsheet analysis, consider using Excel" ++ aq ++
          "s built-in AI features or specialized data analysis tools for better performance.",
        actionable := true, priority := .low}]
    else []
  securityPart ++ qualityPart ++ efficiencyPart

/-- `AIContentAnalyzer.identifyLearningOpportunity`: mutually exclusive,
first matching rule wins. -/
def identifyLearningOpportunity (aiTool : Option String)
    (promptQuality : PromptQuality) (sensitiveData : SensitiveDataResult)
    (content : String) : Option LearningOpportunity :=
  match aiTool with
  | some tool =>
    if sensitiveData.detected then
      some {type := .security_risk, title := "Data Privacy Best Practices",
            description := "Learn how to safely use AI tools with sensitive information",
            exampleStr := some ("Instead of: \"Analyze this customer list: [actual data]\"\nTry: \"Analyze a customer list with columns: name, email, purchase_amount\""),
            resources := some ["https://dam.ai/learn/data-privacy",
          "https://dam.ai/learn/ai-security"]}
    else if promptQuality = .poor then
      some {type := .prompt_improvement, title := "Write Better AI Prompts",
            description := "Your prompt is too vague. Learn prompt engineering techniques to get better results",
            exampleStr := some ("Instead of: \"" ++ content.take 20 ++
          "...\"\nTry: \"[Be specific about what you want, provide context, specify format, include examples]\""),
            resources := some ["https://dam.ai/learn/prompt-engineering",
          "https://dam.ai/learn/ai-communication"]}
    else if promptQuality = .fair then
      some {type := .prompt_improvement, title := "Write Better AI Prompts",
            description := "Learn prompt engineering techniques to get better results",
            exampleStr := some ("Instead of: \"Fix this\"\nTry: \"Review this Python function for bugs and suggest improvements. Focus on error handling and performance.\""),
            resources := some ["https://dam.ai/learn/prompt-engineering",
          "https://dam.ai/learn/ai-communication"]}
    else if jsIncludes (jsLower content) "code" && tool = "chatgpt" then
      some {type := .tool_suggestion, title := "Try GitHub Copilot for Coding",
            description := "For code-related tasks, specialized tools like GitHub Copilot might provide better results with IDE integration.",
            resources := some ["https://dam.ai/learn/coding-ai-tools"]}
    else none
  | none =>
    if promptQuality = .poor then
      some {type := .prompt_improvement, title := "Write Better AI Prompts",
            description := "Your prompt is too vague. Learn prompt engineering techniques to get better results",
            exampleStr := some ("Instead of: \"" ++ content.take 20 ++
          "...\"\nTry: \"[Be specific about what you want, provide context, specify format, include examples]\""),
            resources := some ["https://dam.ai/learn/prompt-engineering",
          "https://dam.ai/learn/ai-communication"]}
    else if promptQuality = .fair then
      some {type := .prompt_improvement, title := "Write Better AI Prompts",
            description := "Learn prompt engineering techniques to get better results",
            exampleStr := some ("Instead of: \"Fix this\"\nTry: \"Review this Python function for bugs and suggest improvements. Focus on error handling and performance.\""),
            resources := some ["https://dam.ai/learn/prompt-engineering",
          "https://dam.ai/learn/ai-communication"]}
    else none

/-! ## `AIContentAnalyzer.analyzeContent` -/

structure ScreenCaptureResult where
  timestamp : Nat
  imageData : String
  activeWindow : String
  screenId : String
deriving Repr, DecidableEq

structure AnalysisResult where
  timestamp : Nat
  riskLevel : RiskLevel
  sensitiveDataDetected : Bool
  sensitiveDataTypes : List String
  aiToolDetected : Option String
  promptQuality : PromptQuality
  suggestions : List Suggestion
  learningOpportunity : Option LearningOpportunity
deriving Repr, DecidableEq

/-- `AIContentAnalyzer.analyzeContent` (`now` stands for `Date.now()`;
the enterprise-dashboard sync is an external fire-and-forget sink and
does not affect the returned result).  Prompt quality is only assessed
when an AI tool was detected, otherwise it is hard-coded `'good'`. -/
def analyzeContent (st : RegexState) (now : Nat)
    (screenCapture : ScreenCaptureResult) (extractedText : String) :
    AnalysisResult × RegexState :=
  let aiToolDetected := detectAITool screenCapture.activeWindow extractedText
  let sens := analyzeSensitiveData st extractedText
  let sensitiveDataAnalysis := sens.1
  let promptQuality :=
    match aiToolDetected with
    | some _ => analyzePromptQuality extractedText
    | none => .good
  let riskLevel := calculateRiskLevel sensitiveDataAnalysis.detected
    sensitiveDataAnalysis.types aiToolDetected
  let suggestions := generateSuggestions aiToolDetected sensitiveDataAnalysis
    promptQuality extractedText
  let learningOpportunity := identifyLearningOpportunity aiToolDetected
    promptQuality sensitiveDataAnalysis extractedText
  ({timestamp := now, riskLevel,
    sensitiveDataDetected := sensitiveDataAnalysis.detected,
    sensitiveDataTypes := sensitiveDataAnalysis.types,
    aiToolDetected, promptQuality, suggestions, learningOpportunity}, sens.2)

/-- `AIContentAnalyzer.sanitizeContentForAlert`: global replacement for
the `g`-flagged key patterns, first-occurrence replacement for the
`g`-less `ssn` and `creditCard` patterns, then the 500-character
truncation.  (`String.replace` ignores `lastIndex`.) -/
def sanitizeContentForAlert (content : String) : String :=
  let sanitized := content
  let sanitized := jsReplace (mCI apiKeyM) true true "[API_KEY_REDACTED]" true sanitized
  let sanitized := jsReplace openaiKeyM true true "[OPENAI_KEY_REDACTED]" true sanitized
  let sanitized := jsReplace ssnM true true "[SSN_REDACTED]" false sanitized
  let sanitized := jsReplace creditCardM true true "[CREDIT_CARD_REDACTED]" false sanitized
  if sanitized.length > 500 then sanitized.take 500 ++ "... [TRUNCATED]"
  else sanitized

/-! ## `AIWindowDetector` -/

structure AIWindowInfo where
  isAIWindow : Bool
  platform : Option String := none
  url : Option String := none
  appName : Option String := none
deriving Repr, DecidableEq

/-- `aiPlatformUrls` (all `i`-flagged). -/
def aiPlatformUrls : List (Matcher × String) :=
  let http := fun (tail : Matcher) =>
    mSeq (mLit "http") (mSeq (mOpt (mLit "s")) (mSeq (mLit "://") tail))
  [(http (mSeq (mOpt (mLit "www.")) (mLit "chatgpt.com")), "ChatGPT"),
   (http (mLit "chat.openai.com"), "ChatGPT"),
   (http (mSeq (mOpt (mLit "www.")) (mLit "claude.ai")), "Claude"),
   (http (mLit "claude.anthropic.com"), "Claude"),
   (http (mLit "gemini.google.com"), "Gemini"),
   (http (mLit "bard.google.com"), "Gemini"),
   (http (mSeq (mOpt (mLit "www.")) (mLit "perplexity.ai")), "Perplexity")]

/-- `terminalAIPatterns` (all `i`-flagged), e.g. `/claude\s+(-|--)?/i`. -/
def terminalAIPatterns : List (Matcher × String) :=
  let cli := fun (name : String) =>
    mSeq (mLit name) (mSeq (mRepGe jsSpace 1) (mOpt (mAlt (mLit "-") (mLit "--"))))
  [(cli "claude", "Claude CLI"), (cli "gemini", "Gemini CLI"),
   (cli "openai", "OpenAI CLI"), (cli "chatgpt", "ChatGPT CLI")]

/-- `aiDesktopApps` (all `i`-flagged), e.g. `/claude.*desktop|claude\s*app/i`. -/
def aiDesktopApps : List (Matcher × String) :=
  let app := fun (name : String) =>
    mAlt (mSeq (mLit name) (mSeq (mStar jsDot) (mLit "desktop")))
         (mSeq (mLit name) (mSeq (mStar jsSpace) (mLit "app")))
  [(app "claude", "Claude Desktop"),
   (mAlt (mSeq (mLit "chatgpt") (mSeq (mStar jsDot) (mLit "desktop")))
         (mSeq (mLit "openai") (mSeq (mStar jsSpace) (mLit "app"))), "ChatGPT Desktop"),
   (app "gemini", "Gemini Desktop")]

/-- `AIWindowDetector.checkBrowserAIPlatform`. -/
def checkBrowserAIPlatform (windowTitle extractedText : String) : AIWindowInfo :=
  let windowTitleLower := jsLower windowTitle
  let isBrowser := jsIncludes windowTitleLower "chrome" ||
    jsIncludes windowTitleLower "firefox" || jsIncludes windowTitleLower "safari" ||
    jsIncludes windowTitleLower "edge" || jsIncludes windowTitleLower "brave"
  if !isBrowser then {isAIWindow := false}
  else
    let combinedText := windowTitle ++ " " ++ extractedText
    let cl := combinedText.toList
    match aiPlatformUrls.findSome? (fun urlPattern =>
        (firstMatch (mCI urlPattern.1) false false cl).map
          (fun se => (urlPattern.2, se))) with
    | some (platform, s, e) =>
      {isAIWindow := true, platform := some platform,
       url := some (String.mk ((cl.drop s).take (e - s)))}
    | none =>
      match ["ChatGPT", "Claude", "Gemini", "Perplexity"].find?
          (fun platform => jsIncludes windowTitleLower (jsLower platform)) with
      | some platform => {isAIWindow := true, platform := some platform}
      | none => {isAIWindow := false}

/-- `AIWindowDetector.checkTerminalAI`. -/
def checkTerminalAI (windowTitle extractedText : String) : AIWindowInfo :=
  let windowTitleLower := jsLower windowTitle
  let isTerminal := jsIncludes windowTitleLower "terminal" ||
    jsIncludes windowTitleLower "iterm" || jsIncludes windowTitleLower "console" ||
    jsIncludes windowTitleLower "powershell" || jsIncludes windowTitleLower "cmd"
  if !isTerminal then {isAIWindow := false}
  else
    match terminalAIPatterns.find?
        (fun pattern => testPat (mCI pattern.1) false false extractedText.toList) with
    | some pattern =>
      {isAIWindow := true, platform := some pattern.2, appName := some "Terminal"}
    | none => {isAIWindow := false}

/-- `AIWindowDetector.checkDesktopAIApp` (patterns run on the already
lower-cased title). -/
def checkDesktopAIApp (windowTitle : String) : AIWindowInfo :=
  let windowTitleLower := jsLower windowTitle
  match aiDesktopApps.find?
      (fun app => testPat (mCI app.1) false false windowTitleLower.toList) with
  | some app =>
    {isAIWindow := true, platform := some app.2, appName := some app.2}
  | none => {isAIWindow := false}

/-- `AIWindowDetector.detectAIWindow`: browser match, then terminal
match, then desktop-app match, first success wins. -/
def detectAIWindow (windowTitle extractedText : String) : AIWindowInfo :=
  let browserMatch := checkBrowserAIPlatform windowTitle extractedText
  if browserMatch.isAIWindow then browserMatch
  else
    let terminalMatch := checkTerminalAI windowTitle extractedText
    if terminalMatch.isAIWindow then terminalMatch
    else
      let desktopMatch := checkDesktopAIApp windowTitle
      if desktopMatch.isAIWindow then desktopMatch
      else {isAIWindow := false}

/-- `AIWindowDetector.shouldShowNotification`, with the `Math.random()`
draw passed explicitly (the two random branches are mutually exclusive,
so a single draw suffices). -/
def shouldShowNotification (aiWindowInfo : AIWindowInfo)
    (analysisResult : AnalysisResult) (draw : ℚ) : Bool :=
  if !aiWindowInfo.isAIWindow then false
  else if analysisResult.riskLevel = .critical ∨ analysisResult.riskLevel = .high
  then true
  else if analysisResult.sensitiveDataDetected then true
  else if analysisResult.promptQuality = .poor then decide (draw < (0.33 : ℚ))
  else if analysisResult.learningOpportunity.isSome ∧
      analysisResult.promptQuality = .fair then decide (draw < (0.2 : ℚ))
  else false

/-! ## `NotificationSettings` -/

inductive NotificationFrequency | all | occasional | minimal
deriving Repr, DecidableEq

structure NotificationPreferences where
  enabled : Bool
  criticalAlerts : Bool
  securityWarnings : Bool
  promptSuggestions : Bool
  learningTips : Bool
  frequency : NotificationFrequency
  soundEnabled : Bool
  position : String
deriving Repr, DecidableEq

/-- `NotificationSettings.defaultSettings`. -/
def defaultSettings : NotificationPreferences :=
  {enabled := true, criticalAlerts := true, securityWarnings := true,
   promptSuggestions := false, learningTips := false,
   frequency := .minimal, soundEnabled := false, position := "bottom-right"}

/-- `NotificationSettings.getFrequencyMultiplier`. -/
def getFrequencyMultiplier (prefs : NotificationPreferences) : ℚ :=
  match prefs.frequency with
  | .all => 1.0
  | .occasional => 0.3
  | .minimal => 0.1

/-! ## `MonitoringService`

One capture tick is modelled as a state transformer on the service's
mutable fields, returning the externally visible actions of the tick in
order (window classification, OCR, content analysis, database writes,
shown notifications).  `now` stands for `Date.now()` during the tick and
the `Math.random()` draws are explicit inputs. -/

inductive TickEffect
  | classifyWindow (title text : String)
  | ocrExtract
  | analyzeText
  | persistUsage
  | persistAlert
  | showNotification (kind : String)
deriving Repr, DecidableEq

structure MonState where
  lastAnalysisTime : Nat
  lastNotificationTime : Nat
  sens : RegexState
deriving Repr, DecidableEq

def analysisThrottleMs : Nat := 3000

def notificationThrottleMs : Nat := 30000

/-- `MonitoringService.canShowNotification`. -/
def canShowNotification (now : Nat) (st : MonState)
    (prefs : NotificationPreferences) : Bool :=
  if now - st.lastNotificationTime < notificationThrottleMs then false
  else prefs.enabled

/-- `MonitoringService.handleAnalysisResults`: `lastNotificationTime` is
set on entry, before any preference or frequency gate; then at most one
notification is shown, by priority. -/
def handleAnalysisResults (prefs : NotificationPreferences)
    (promptDraw learnDraw : ℚ) (now : Nat) (st : MonState)
    (analysis : AnalysisResult) : MonState × List TickEffect :=
  let st1 := {st with lastNotificationTime := now}
  if analysis.riskLevel = .critical ∧ prefs.criticalAlerts then
    (st1, [.showNotification "critical"])
  else if analysis.riskLevel = .high ∧ prefs.securityWarnings then
    (st1, [.showNotification "high"])
  else
    let frequencyMultiplier := getFrequencyMultiplier prefs
    let promptBranchShows :=
      prefs.promptSuggestions && decide (analysis.promptQuality = .poor) &&
      decide (promptDraw < frequencyMultiplier) &&
      (let promptSuggestions := analysis.suggestions.filter
          (fun s => s.type == .quality)
       match promptSuggestions.head? with
       | some s => s.improvedPrompt.isSome
       | none => false)
    if promptBranchShows then (st1, [.showNotification "prompt"])
    else if prefs.learningTips ∧ analysis.learningOpportunity.isSome ∧
        learnDraw < frequencyMultiplier * 0.5 then
      (st1, [.showNotification "learning"])
    else (st1, [])

/-- `MonitoringService.analyzeScreenCapture`, one capture tick:
analysis throttle, window classification on `(activeWindow, '')`, OCR,
content analysis, persistence, then the notification gates. -/
def analyzeScreenCapture (prefs : NotificationPreferences)
    (notifyDraw promptDraw learnDraw : ℚ) (now : Nat) (st : MonState)
    (capture : ScreenCaptureResult) (ocrText : String) :
    MonState × List TickEffect :=
  if now - st.lastAnalysisTime < analysisThrottleMs then (st, [])
  else
    let st := {st with lastAnalysisTime := now}
    let aiWindowInfo := detectAIWindow capture.activeWindow ""
    let effs := [TickEffect.classifyWindow capture.activeWindow ""]
    if !aiWindowInfo.isAIWindow then (st, effs)
    else
      let effs := effs ++ [TickEffect.ocrExtract]
      if (jsTrim ocrText).length = 0 then (st, effs)
      else
        let a := analyzeContent st.sens now capture ocrText
        let analysis := a.1
        let st := {st with sens := a.2}
        let effs := effs ++ [TickEffect.analyzeText]
        let effs := effs ++
          (if analysis.aiToolDetected.isSome then [TickEffect.persistUsage] else [])
        let effs := effs ++
          (if analysis.riskLevel = .high ∨ analysis.riskLevel = .critical then
            [TickEffect.persistAlert] else [])
        let shouldNotify := shouldShowNotification aiWindowInfo analysis notifyDraw
        if shouldNotify && canShowNotification now st prefs then
          let h := handleAnalysisResults prefs promptDraw learnDraw now st analysis
          (h.1, effs ++ h.2)
        else (st, effs)

/-! ## Specification-side definitions

These follow the wording of the specification (not the source) and are
compared with the source-derived definitions above. -/

/-- The four-tier risk function exactly as the specification words it,
as a function of `(aiToolDetected, sensitiveDataTypes)` alone. -/
def specRiskLevel (aiToolDetected : Option String)
    (sensitiveDataTypes : List String) : RiskLevel :=
  if aiToolDetected = none then .low
  else if sensitiveDataTypes.any
      (fun t => t = "apiKey" ∨ t = "password" ∨ t = "ssn") then .critical
  else if sensitiveDataTypes.any
      (fun t => t = "financialData" ∨ t = "customerData" ∨ t = "creditCard")
  then .high
  else if sensitiveDataTypes ≠ [] then .medium
  else .low

/-- The prompt-quality cascade exactly as the specification words it:
any excellent indicator short-circuits; then the number of matching good
indicators decides `good` (≥ 2) or `fair` (= 1); then a poor indicator
(single common verb, length at most 10 characters, bare question word)
gives `poor`; finally the 50-character length fallback. -/
def claimPromptQuality (text : String) : PromptQuality :=
  if excRoleTest text || excConstraintsTest text || excFormatTest text ||
      excNegativeTest text then .excellent
  else
    let count := (if goodContextTest text then 1 else 0) +
      (if goodStepTest text then 1 else 0) +
      (if goodPoliteTest text then 1 else 0)
    if 2 ≤ count then .good
    else if count = 1 then .fair
    else if poorVerbTest text || text.length ≤ 10 || poorQuestionTest text
    then .poor
    else if text.length > 50 then .fair
    else .poor

/-- The notification gate exactly as the claim words it, with the random
draw an explicit input: `false` off AI windows; `critical`/`high` risk
and detected sensitive data notify unconditionally; a poor prompt
notifies with probability 1/3; a learning opportunity on a fair prompt
with probability 1/5. -/
def claimShouldNotify (classification : AIWindowInfo)
    (analysisResult : AnalysisResult) (draw : ℚ) : Bool :=
  if classification.isAIWindow = false then false
  else if analysisResult.riskLevel = .critical ∨ analysisResult.riskLevel = .high
  then true
  else if analysisResult.sensitiveDataDetected then true
  else if analysisResult.promptQuality = .poor then decide (draw < 1/3)
  else if analysisResult.learningOpportunity.isSome ∧
      analysisResult.promptQuality = .fair then decide (draw < 1/5)
  else false

/-- The notification gate with the poor-prompt threshold the code
actually uses, `0.33` (the learning threshold `0.2` does equal 1/5). -/
def amendedShouldNotify (classification : AIWindowInfo)
    (analysisResult : AnalysisResult) (draw : ℚ) : Bool :=
  if classification.isAIWindow = false then false
  else if analysisResult.riskLevel = .critical ∨ analysisResult.riskLevel = .high
  then true
  else if analysisResult.sensitiveDataDetected then true
  else if analysisResult.promptQuality = .poor then decide (draw < 33/100)
  else if analysisResult.learningOpportunity.isSome ∧
      analysisResult.promptQuality = .fair then decide (draw < 1/5)
  else false

/-- The redaction stage of the alert sanitizer on its own: global
replacement of the API-key and OpenAI-key patterns, first-occurrence
replacement of the SSN and credit-card patterns, no truncation. -/
def redactedContentForAlert (content : String) : String :=
  jsReplace creditCardM true true "[CREDIT_CARD_REDACTED]" false
    (jsReplace ssnM true true "[SSN_REDACTED]" false
      (jsReplace openaiKeyM true true "[OPENAI_KEY_REDACTED]" true
        (jsReplace (mCI apiKeyM) true true "[API_KEY_REDACTED]" true content)))

/-- The claim's reading of "contains an SSN-shaped substring": the bare
pattern `\d{3}-\d{2}-\d{4}` somewhere in the text, with no word-boundary
requirement. -/
def ssnShapeTest (text : String) : Bool := testPat ssnM false false text.toList

/-- Last element of a list, or `prev` when the list is empty (the
boundary context accumulated by the scanning loop). -/
def lastOr (prev : Option Char) : List Char → Option Char
  | [] => prev
  | c :: tl => lastOr (some c) tl

end DamDesktop

open DamDesktop

/-- C1: the risk calculator, invoked as the analyzer invokes it
(`hasSensitiveData` = the type list is non-empty), is exactly the
specification's four-tier function of `(aiToolDetected,
sensitiveDataTypes)`: no AI tool forces `low`; a critical-triggering
type wins over a high-triggering one; any other sensitive type gives
`medium`; otherwise `low`. -/
theorem C1_riskLevel_matches_spec (aiTool : Option String) (types : List String) :
    calculateRiskLevel (!types.isEmpty) types aiTool = specRiskLevel aiTool types := by
  cases aiTool with
  | none => simp [calculateRiskLevel, specRiskLevel]
  | some tool =>
    cases types with
    | nil => simp [calculateRiskLevel, specRiskLevel]
    | cons h t =>
      have hc : (fun type => ["apiKey", "password", "ssn"].contains type) =
          (fun t : String => decide (t = "apiKey" ∨ t = "password" ∨ t = "ssn")) :=
        funext fun x => by simp [List.contains, List.elem_eq_mem]
      have hh : (fun type =>
            ["financialData", "customerData", "creditCard"].contains type) =
          (fun t : String => decide (t = "financialData" ∨ t = "customerData" ∨
            t = "creditCard")) :=
        funext fun x => by simp [List.contains, List.elem_eq_mem]
      simp only [calculateRiskLevel, specRiskLevel, Option.isNone_some,
        Bool.false_eq_true, if_false, List.isEmpty_cons, Bool.not_false,
        if_true, reduceCtorEq, ne_eq, not_false_iff, hc, hh]

/-- C10: whenever no AI tool is detected from the combined window title
and text, `analyzeContent` reports promptQuality `good` without ever
consulting the prompt-quality assessor. -/
theorem C10_promptQuality_good_without_tool (st : RegexState) (now : Nat)
    (cap : ScreenCaptureResult) (text : String)
    (h : detectAITool cap.activeWindow text = none) :
    (analyzeContent st now cap text).1.promptQuality = .good := by
  simp [analyzeContent, h]

/-- C10 witness: the text `"help"` in a non-AI window is reported
`good` even though the assessor itself rates `"help"` as `poor`. -/
theorem C10_witness :
    detectAITool "Notepad" "help" = none ∧
    analyzePromptQuality "help" = .poor ∧
    (analyzeContent RegexState.init 0 ⟨0, "", "Notepad", "s1"⟩ "help").1.promptQuality
      = .good :=
  ⟨by decide, by decide,
   C10_promptQuality_good_without_tool RegexState.init 0 ⟨0, "", "Notepad", "s1"⟩
     "help" (by decide)⟩

/-- C5 (code bug evidence): the sensitive-data detector is NOT a pure
function of its text: the `g`-flagged `openaiKey` regex keeps its
`lastIndex` across calls, so the same text analysed twice in a row on
the same analyzer gives two different results. -/
theorem C5_detector_stateful :
    (analyzeSensitiveData RegexState.init
      "sk-abcd1234567890123456789012345678901234567890ab").1 =
        ⟨true, ["openaiKey"]⟩ ∧
    (analyzeSensitiveData
      (analyzeSensitiveData RegexState.init
        "sk-abcd1234567890123456789012345678901234567890ab").2
      "sk-abcd1234567890123456789012345678901234567890ab").1 =
        ⟨false, []⟩ := by
  constructor <;> decide

/-- C7 (amended): `handleAnalysisResults` updates the notification
throttle timestamp unconditionally on entry — whether or not any
notification ends up being shown — so a fully gated-out dispatch still
delays the next eligible notification. -/
theorem C7_throttle_amended (prefs : NotificationPreferences)
    (promptDraw learnDraw : ℚ) (now : Nat) (st : MonState)
    (analysis : AnalysisResult) :
    (handleAnalysisResults prefs promptDraw learnDraw now st analysis).1.lastNotificationTime
      = now := by
  simp only [handleAnalysisResults]
  split
  · rfl
  · split
    · rfl
    · split
      · rfl
      · split <;> rfl

/-- C7 counterexample: a tick whose dispatch stage is entered (critical
risk, notifications enabled, throttle elapsed) but where every
preference gate fails shows nothing, yet moves `lastNotificationTime`
from 0 to `now` — the claim said it would be left unchanged. -/
theorem C7_throttle_counterexample :
    (analyzeScreenCapture
        ⟨true, false, false, false, false, .minimal, false, "bottom-right"⟩
        0 0 0 100000 ⟨0, 0, RegexState.init⟩
        ⟨0, "", "Chrome - claude.ai", "s1"⟩
        "my password: hunter2secret").1.lastNotificationTime = 100000 ∧
    ∀ k, TickEffect.showNotification k ∉
      (analyzeScreenCapture
        ⟨true, false, false, false, false, .minimal, false, "bottom-right"⟩
        0 0 0 100000 ⟨0, 0, RegexState.init⟩
        ⟨0, "", "Chrome - claude.ai", "s1"⟩
        "my password: hunter2secret").2 := by
  constructor
  · decide
  · intro k
    have : (analyzeScreenCapture
        ⟨true, false, false, false, false, .minimal, false, "bottom-right"⟩
        0 0 0 100000 ⟨0, 0, RegexState.init⟩
        ⟨0, "", "Chrome - claude.ai", "s1"⟩
        "my password: hunter2secret").2 =
        [TickEffect.classifyWindow "Chrome - claude.ai" "", TickEffect.ocrExtract,
         TickEffect.analyzeText, TickEffect.persistUsage, TickEffect.persistAlert] := by
      decide
    rw [this]
    simp

/-- A string accepted by `/^.{0,10}$/` has at most 10 characters. -/
theorem poorLenTest_le (text : String) (h : poorLenTest text = true) :
    text.length ≤ 10 := by
  have hlen : text.length = text.toList.length := rfl
  unfold poorLenTest anchoredTest mRepRange at h
  set l := text.toList with hl
  set k := min (leadRun jsDot l) 10 with hk
  have hk10 : k ≤ 10 := Nat.min_le_right _ _
  simp only [Nat.not_lt_zero, if_false, Nat.sub_zero] at h
  rcases List.any_eq_true.mp h with ⟨rest, hmem, hempty⟩
  rcases List.mem_map.mp hmem with ⟨i, hi, hrest⟩
  have : l.drop (k - i) = [] := by
    rw [← hrest] at hempty
    exact List.isEmpty_iff.mp hempty
  have hle := List.drop_eq_nil_iff.mp this
  omega

/-- C4: the prompt-quality assessor equals the specification's strict
priority cascade on every input, and the bare verb `"help"` is rated
`poor` (the bare-verb rule fires before the length fallback). -/
theorem C4_promptQuality_cascade :
    (∀ text, analyzePromptQuality text = claimPromptQuality text) ∧
    analyzePromptQuality "help" = .poor := by
  constructor
  · intro text
    unfold analyzePromptQuality claimPromptQuality
    have hany : excellentIndicators.any (fun p => p text) =
        (excRoleTest text || excConstraintsTest text || excFormatTest text ||
          excNegativeTest text) := by
      simp [excellentIndicators, Bool.or_assoc]
    have hcnt : goodIndicators.countP (fun p => p text) =
        (if goodContextTest text then 1 else 0) +
        (if goodStepTest text then 1 else 0) +
        (if goodPoliteTest text then 1 else 0) := by
      simp only [goodIndicators, List.countP_cons, List.countP_nil]
      split <;> split <;> split <;> simp
    rw [hany, hcnt]
    by_cases hex : (excRoleTest text || excConstraintsTest text ||
        excFormatTest text || excNegativeTest text) = true
    · simp [hex]
    · simp only [Bool.not_eq_true] at hex
      simp only [hex, Bool.false_eq_true, if_false]
      by_cases h2 : 2 ≤ (if goodContextTest text then 1 else 0) +
          (if goodStepTest text then 1 else 0) +
          (if goodPoliteTest text then 1 else 0)
      · simp [h2]
      · by_cases h1 : (if goodContextTest text then 1 else 0) +
            (if goodStepTest text then 1 else 0) +
            (if goodPoliteTest text then 1 else 0) = 1
        · simp [h1, h2]
        · rw [if_neg h2, if_neg h2]
          simp only [beq_iff_eq]
          rw [if_neg h1, if_neg h1]
          have hpoor : poorIndicators.any (fun p => p text) =
              (poorVerbTest text || poorLenTest text || poorQuestionTest text) := by
            simp [poorIndicators, Bool.or_assoc]
          rw [hpoor]
          by_cases hp1 : poorVerbTest text = true
          · simp [hp1]
          · simp only [Bool.not_eq_true] at hp1
            by_cases hp3 : poorQuestionTest text = true
            · simp [hp1, hp3]
            · simp only [Bool.not_eq_true] at hp3
              by_cases hp2 : poorLenTest text = true
              · have hle := poorLenTest_le text hp2
                have hng : ¬ text.length > 50 :=
                  Nat.not_lt.mpr (hle.trans (by norm_num))
                simp [hp1, hp2, hp3, hle, hng]
              · simp only [Bool.not_eq_true] at hp2
                by_cases hl : text.length ≤ 10
                · have hng : ¬ text.length > 50 :=
                    Nat.not_lt.mpr (hl.trans (by norm_num))
                  simp [hp1, hp2, hp3, hl, hng]
                · simp [hp1, hp2, hp3, hl]
  · decide

/-- C3 counterexample: at draw 0.331 on an AI window with a poor prompt,
low risk and no sensitive data, the code (threshold 0.33) does not
notify while the claim's 1/3-threshold gate does, so the gate is not the
claim's case analysis. -/
theorem C3_shouldNotify_counterexample :
    shouldShowNotification ⟨true, some "Claude", none, none⟩
      ⟨0, .low, false, [], some "claude", .poor, [], none⟩ (331/1000) = false ∧
    claimShouldNotify ⟨true, some "Claude", none, none⟩
      ⟨0, .low, false, [], some "claude", .poor, [], none⟩ (331/1000) = true := by
  constructor
  · have h : ¬ ((331/1000 : ℚ) < 0.33) := by norm_num
    unfold shouldShowNotification
    simp [h]
  · have h : ((331/1000 : ℚ) < 1/3) := by norm_num
    unfold claimShouldNotify
    simp [one_div] at h
    simp [h]

/-- C3 (amended): with the poor-prompt probability amended from 1/3 to
the code's 0.33, the gate equals the claim's case analysis at every
classification, analysis result and draw. -/
theorem C3_shouldNotify_amended (classification : AIWindowInfo)
    (analysisResult : AnalysisResult) (draw : ℚ) :
    shouldShowNotification classification analysisResult draw =
      amendedShouldNotify classification analysisResult draw := by
  have h33 : (0.33 : ℚ) = 33/100 := by norm_num
  unfold shouldShowNotification amendedShouldNotify
  rw [h33]
  have h02 : (0.2 : ℚ) = 1/5 := by norm_num
  rw [h02]
  cases classification.isAIWindow <;> simp

/-- C2 counterexample: on the claim's own end-to-end scenario (window
"Chrome - claude.ai", OCR text a 46-character `sk-` key) the analyzer
does NOT report `apiKey` (the `apiKey` pattern wants 48+ characters
after `sk-`; only `openaiKey` fires) and the risk is `medium`, not
`critical`. -/
theorem C2_end_to_end_counterexample :
    "apiKey" ∉ (analyzeContent RegexState.init 0 ⟨0, "", "Chrome - claude.ai", "s1"⟩
      "sk-abcd1234567890123456789012345678901234567890ab").1.sensitiveDataTypes ∧
    (analyzeContent RegexState.init 0 ⟨0, "", "Chrome - claude.ai", "s1"⟩
      "sk-abcd1234567890123456789012345678901234567890ab").1.riskLevel ≠
      .critical := by
  constructor
  · decide
  · decide

/-- C2 (amended): the end-to-end scenario with `openaiKey`/`medium` in
place of `apiKey`/`critical`: AI window with platform Claude, sensitive
data detected with `openaiKey` among the types, tool `claude`, risk
`medium`, a `security` and an `alternative` suggestion, and the
notification gate answering `true` for every draw (via the
sensitive-data rule, no randomness consulted). -/
theorem C2_end_to_end_amended :
    (detectAIWindow "Chrome - claude.ai" "").isAIWindow = true ∧
    (detectAIWindow "Chrome - claude.ai" "").platform = some "Claude" ∧
    (analyzeContent RegexState.init 0 ⟨0, "", "Chrome - claude.ai", "s1"⟩
      "sk-abcd1234567890123456789012345678901234567890ab").1.sensitiveDataDetected
      = true ∧
    "openaiKey" ∈ (analyzeContent RegexState.init 0
      ⟨0, "", "Chrome - claude.ai", "s1"⟩
      "sk-abcd1234567890123456789012345678901234567890ab").1.sensitiveDataTypes ∧
    (analyzeContent RegexState.init 0 ⟨0, "", "Chrome - claude.ai", "s1"⟩
      "sk-abcd1234567890123456789012345678901234567890ab").1.aiToolDetected
      = some "claude" ∧
    (analyzeContent RegexState.init 0 ⟨0, "", "Chrome - claude.ai", "s1"⟩
      "sk-abcd1234567890123456789012345678901234567890ab").1.riskLevel
      = .medium ∧
    ((analyzeContent RegexState.init 0 ⟨0, "", "Chrome - claude.ai", "s1"⟩
      "sk-abcd1234567890123456789012345678901234567890ab").1.suggestions.any
        (fun s => s.type == .security)) = true ∧
    ((analyzeContent RegexState.init 0 ⟨0, "", "Chrome - claude.ai", "s1"⟩
      "sk-abcd1234567890123456789012345678901234567890ab").1.suggestions.any
        (fun s => s.type == .alternative)) = true ∧
    ∀ draw : ℚ, shouldShowNotification (detectAIWindow "Chrome - claude.ai" "")
      (analyzeContent RegexState.init 0 ⟨0, "", "Chrome - claude.ai", "s1"⟩
        "sk-abcd1234567890123456789012345678901234567890ab").1 draw = true := by
  refine ⟨by decide, by decide, by decide, by decide, by decide, by decide,
    by decide, by decide, ?_⟩
  intro draw
  have hAI : (detectAIWindow "Chrome - claude.ai" "").isAIWindow = true := by decide
  have hrl : (analyzeContent RegexState.init 0 ⟨0, "", "Chrome - claude.ai", "s1"⟩
      "sk-abcd1234567890123456789012345678901234567890ab").1.riskLevel
      = .medium := by decide
  have hsd : (analyzeContent RegexState.init 0 ⟨0, "", "Chrome - claude.ai", "s1"⟩
      "sk-abcd1234567890123456789012345678901234567890ab").1.sensitiveDataDetected
      = true := by decide
  unfold shouldShowNotification
  rw [hAI, hrl, hsd]
  simp

/-- C8 counterexample: the `ssn` regex has no `g` flag, so
`String.replace` redacts only the FIRST SSN span: on a text with two
SSNs the second survives verbatim, and an SSN-shaped span is still
present in the sanitizer's output, contradicting the claim that no such
span survives. -/
theorem C8_sanitizer_counterexample :
    sanitizeContentForAlert "first 123-45-6789 second 987-65-4321" =
      "first [SSN_REDACTED] second 987-65-4321" ∧
    ssnTest ("first [SSN_REDACTED] second 987-65-4321").toList = true := by
  constructor
  · decide
  · decide

/-- C8 (amended): the sanitizer equals redaction — global for the
API-key and OpenAI-key patterns, first occurrence only for SSN and
credit card — followed by exact truncation: content under 500 characters
is returned as redacted, longer content is cut to its first 500
characters plus the `... [TRUNCATED]` marker. -/
theorem C8_sanitizer_amended (content : String) :
    ((redactedContentForAlert content).length ≤ 500 →
      sanitizeContentForAlert content = redactedContentForAlert content) ∧
    (500 < (redactedContentForAlert content).length →
      sanitizeContentForAlert content =
        (redactedContentForAlert content).take 500 ++ "... [TRUNCATED]") := by
  unfold sanitizeContentForAlert redactedContentForAlert
  constructor
  · intro h
    rw [if_neg (Nat.not_lt.mpr h)]
  · intro h
    rw [if_pos h]

/-- C8 witness: a short two-SSN text takes the no-truncation branch of
the amended statement. -/
theorem C8_sanitizer_witness :
    (redactedContentForAlert "first 123-45-6789 second 987-65-4321").length ≤ 500 ∧
    sanitizeContentForAlert "first 123-45-6789 second 987-65-4321" =
      redactedContentForAlert "first 123-45-6789 second 987-65-4321" :=
  ⟨by decide,
   (C8_sanitizer_amended "first 123-45-6789 second 987-65-4321").1 (by decide)⟩

/-- C9 counterexample: `"1234-56-7890"` contains the bare shape
`\d{3}-\d{2}-\d{4}` (as the substring `234-56-7890`), yet the code's
`\b`-anchored `ssn` pattern rejects it — the leading digit run breaks
the word boundary — so the detector reports nothing at all. -/
theorem C9_ssn_shape_counterexample :
    ssnShapeTest "1234-56-7890" = true ∧
    "ssn" ∉ (analyzeSensitiveData RegexState.init "1234-56-7890").1.types ∧
    (analyzeSensitiveData RegexState.init "1234-56-7890").1.detected = false := by
  refine ⟨by decide, by decide, by decide⟩

/-- `lastOr` is the last element when there is one, else the seed. -/
theorem lastOr_or_getLast (l : List Char) :
    ∀ prev, lastOr prev l = l.getLast?.or prev := by
  induction l with
  | nil => intro prev; simp [lastOr]
  | cons c tl ih =>
    intro prev
    show lastOr (some c) tl = (c :: tl).getLast?.or prev
    rw [ih (some c)]
    cases htl : tl.getLast? <;> simp [List.getLast?_cons, htl, Option.or]

/-- Completeness of the scan: if the pattern matches at the seam between
`pre` and `suf` (with the boundary context accumulated over `pre`), the
scanning loop finds a match in `pre ++ suf`. -/
theorem firstMatchAux_isSome_append (m : Matcher) (sb eb : Bool) :
    ∀ (pre : List Char) (prev : Option Char) (i : Nat) (suf : List Char),
      (matchesAt m sb eb (lastOr prev pre) suf).isSome = true →
      (firstMatchAux m sb eb prev i (pre ++ suf)).isSome = true := by
  intro pre
  induction pre with
  | nil =>
    intro prev i suf h
    rw [show lastOr prev [] = prev from rfl] at h
    rw [List.nil_append]
    cases suf with
    | nil =>
      cases hm : matchesAt m sb eb prev [] with
      | some r => simp [firstMatchAux, hm]
      | none => rw [hm] at h; simp at h
    | cons c tl =>
      cases hm : matchesAt m sb eb prev (c :: tl) with
      | some r => simp [firstMatchAux, hm]
      | none => rw [hm] at h; simp at h
  | cons c tl ih =>
    intro prev i suf h
    rw [List.cons_append]
    cases hm : matchesAt m sb eb prev (c :: (tl ++ suf)) with
    | some r => simp [firstMatchAux, hm]
    | none =>
      have hstep : firstMatchAux m sb eb prev i (c :: (tl ++ suf)) =
          firstMatchAux m sb eb (some c) (i + 1) (tl ++ suf) := by
        simp [firstMatchAux, hm]
      rw [hstep]
      exact ih (some c) (i + 1) suf h

/-- A digit is a word character. -/
theorem jsDigit_isWord (ch : Char) (h : jsDigit ch = true) : jsWord ch = true := by
  simp only [jsDigit] at h
  simp [jsWord, Char.isAlphanum, h]

/-- The SSN matcher consumes exactly a `\d{3}-\d{2}-\d{4}` block at the
head of the input when the following character is not a digit. -/
theorem ssnM_at_core (a b c d e f g h i : Char) (post : List Char)
    (ha : jsDigit a = true) (hb : jsDigit b = true) (hc : jsDigit c = true)
    (hd : jsDigit d = true) (he : jsDigit e = true) (hf : jsDigit f = true)
    (hg : jsDigit g = true) (hh : jsDigit h = true) (hi : jsDigit i = true)
    (hpost : leadRun jsDigit post = 0) :
    ssnM ([a, b, c, '-', d, e, '-', f, g, h, i] ++ post) = [post] := by
  have hdash : jsDigit '-' = false := by decide
  have hlen : ("-" : String).length = 1 := rfl
  have htl : ("-" : String).toList = ['-'] := rfl
  simp [ssnM, mSeq, mLit, mRepExact, mRepRange, leadRun, headIs,
    ha, hb, hc, hd, he, hf, hg, hh, hi, hdash, hpost, hlen, htl,
    List.range_succ]

/-- C9 (amended): whenever the text contains a `\d{3}-\d{2}-\d{4}` block
that is bounded by word boundaries on both sides — not preceded and not
followed by a word character — the detector reports `ssn` among the
types, whatever the `lastIndex` state of the `g`-flagged patterns. -/
theorem C9_ssn_boundary_amended (st : RegexState) (text : String)
    (pre post : List Char) (a b c d e f g h i : Char)
    (hsplit : text.toList = pre ++ [a, b, c, '-', d, e, '-', f, g, h, i] ++ post)
    (ha : jsDigit a = true) (hb : jsDigit b = true) (hc : jsDigit c = true)
    (hd : jsDigit d = true) (he : jsDigit e = true) (hf : jsDigit f = true)
    (hg : jsDigit g = true) (hh : jsDigit h = true) (hi : jsDigit i = true)
    (hb1 : jsBoundary pre.getLast? (some a) = true)
    (hb2 : jsBoundary (some i) post.head? = true) :
    "ssn" ∈ (analyzeSensitiveData st text).1.types := by
  have hwi : jsWord i = true := jsDigit_isWord i hi
  have hpost : leadRun jsDigit post = 0 := by
    cases post with
    | nil => rfl
    | cons p tl =>
      have hbp : jsBoundary (some i) (some p) = true := by
        simpa using hb2
      have hwp : jsWord p = false := by
        by_contra hne
        have hpw := eq_true_of_ne_false hne
        rw [show jsBoundary (some i) (some p) = (jsWord i != jsWord p) from rfl,
          hwi, hpw] at hbp
        simp at hbp
      have hdp : jsDigit p = false := by
        by_contra hne
        have := jsDigit_isWord p (eq_true_of_ne_false hne)
        rw [this] at hwp
        exact absurd hwp (by simp)
      simp [leadRun, hdp]
  have hM := ssnM_at_core a b c d e f g h i post ha hb hc hd he hf hg hh hi hpost
  have hmat : (matchesAt ssnM true true pre.getLast?
      ([a, b, c, '-', d, e, '-', f, g, h, i] ++ post)).isSome = true := by
    unfold matchesAt
    have hhead : ([a, b, c, '-', d, e, '-', f, g, h, i] ++ post).head? = some a := rfl
    rw [hhead, hb1]
    simp only [Bool.not_true, Bool.and_false, Bool.false_eq_true, if_false, hM]
    have hcl : consumedLast ([a, b, c, '-', d, e, '-', f, g, h, i] ++ post) post
        = some i := by
      unfold consumedLast
      rw [List.length_append, Nat.add_sub_cancel,
        show ([a, b, c, '-', d, e, '-', f, g, h, i] : List Char).length = 11 from rfl,
        show ([a, b, c, '-', d, e, '-', f, g, h, i] ++ post).take 11
          = [a, b, c, '-', d, e, '-', f, g, h, i] from
          List.take_left [a, b, c, '-', d, e, '-', f, g, h, i] post]
      rfl
    simp only [List.find?]
    rw [Bool.false_or, hcl, hb2]
    rfl
  have htest : ssnTest text.toList = true := by
    unfold ssnTest testPat firstMatch
    rw [hsplit, List.append_assoc]
    apply firstMatchAux_isSome_append
    rw [lastOr_or_getLast, Option.or_none]
    exact hmat
  simp only [analyzeSensitiveData, htest, if_true]
  simp

/-- C9 witness: `"my ssn is 123-45-6789 ok"` decomposes around a
boundary-delimited SSN block, so the amended statement yields `ssn`
among the detected types. -/
theorem C9_ssn_witness :
    "ssn" ∈ (analyzeSensitiveData RegexState.init
      "my ssn is 123-45-6789 ok").1.types :=
  C9_ssn_boundary_amended RegexState.init "my ssn is 123-45-6789 ok"
    "my ssn is ".toList " ok".toList '1' '2' '3' '4' '5' '6' '7' '8' '9'
    (by decide) (by decide) (by decide) (by decide) (by decide) (by decide)
    (by decide) (by decide) (by decide) (by decide) (by decide) (by decide)

/-- C6: a capture tick classifies the window on `(activeWindow, "")`
before anything else; when that classification is negative the tick
performs no OCR, no content analysis and no persistence (its visible
actions are at most the classification itself), and OCR only ever runs
after a positive classification, directly preceded by it. -/
theorem C6_nonAI_tick_skips_pipeline (prefs : NotificationPreferences)
    (d1 d2 d3 : ℚ) (now : Nat) (st : MonState) (cap : ScreenCaptureResult)
    (ocrText : String) :
    ((detectAIWindow cap.activeWindow "").isAIWindow = false →
      (analyzeScreenCapture prefs d1 d2 d3 now st cap ocrText).2 = [] ∨
      (analyzeScreenCapture prefs d1 d2 d3 now st cap ocrText).2 =
        [TickEffect.classifyWindow cap.activeWindow ""]) ∧
    (TickEffect.ocrExtract ∈ (analyzeScreenCapture prefs d1 d2 d3 now st cap ocrText).2 →
      (detectAIWindow cap.activeWindow "").isAIWindow = true ∧
      (analyzeScreenCapture prefs d1 d2 d3 now st cap ocrText).2.head? =
        some (TickEffect.classifyWindow cap.activeWindow "")) := by
  by_cases ht : now - st.lastAnalysisTime < analysisThrottleMs
  · constructor
    · intro _
      left
      simp [analyzeScreenCapture, ht]
    · intro hmem
      exfalso
      rw [show (analyzeScreenCapture prefs d1 d2 d3 now st cap ocrText).2 = []
        from by simp [analyzeScreenCapture, ht]] at hmem
      simp at hmem
  · by_cases hai : (detectAIWindow cap.activeWindow "").isAIWindow = true
    · constructor
      · intro hf
        rw [hai] at hf
        exact absurd hf (by simp)
      · intro _
        refine ⟨hai, ?_⟩
        simp only [analyzeScreenCapture, ht, if_false, hai, Bool.not_true]
        split_ifs <;> simp
    · have hf : (detectAIWindow cap.activeWindow "").isAIWindow = false :=
        Bool.eq_false_iff.mpr (fun hcontra => hai hcontra)
      constructor
      · intro _
        right
        simp [analyzeScreenCapture, ht, hf]
      · intro hmem
        exfalso
        rw [show (analyzeScreenCapture prefs d1 d2 d3 now st cap ocrText).2 =
            [TickEffect.classifyWindow cap.activeWindow ""]
          from by simp [analyzeScreenCapture, ht, hf]] at hmem
        simp at hmem

/-- C6 witness: a tick on a `"Terminal"` capture (the CLI patterns see
the pre-OCR empty text) is classified negative and its only visible
action is the classification — no OCR, no analysis, no persisted
record, matching `"ls -la"` never being analysed. -/
theorem C6_terminal_tick_witness :
    (detectAIWindow "Terminal" "").isAIWindow = false ∧
    ((analyzeScreenCapture defaultSettings 0 0 0 5000 ⟨0, 0, RegexState.init⟩
        ⟨0, "", "Terminal", "s1"⟩ "ls -la").2 = [] ∨
      (analyzeScreenCapture defaultSettings 0 0 0 5000 ⟨0, 0, RegexState.init⟩
        ⟨0, "", "Terminal", "s1"⟩ "ls -la").2 =
        [TickEffect.classifyWindow "Terminal" ""]) :=
  ⟨by decide,
   (C6_nonAI_tick_skips_pipeline defaultSettings 0 0 0 5000 ⟨0, 0, RegexState.init⟩
      ⟨0, "", "Terminal", "s1"⟩ "ls -la").1 (by decide)⟩
